import Mathlib

/-!
Shallow embedding of the rFactor-OpenMotorsport logging plugin.

The development models the synchronous, millisecond-denominated variant of
LoggingPlugin.cpp (the reference behaviour per the design notes), together
with the OpenMotorsport Session model from OpenMotorsport.cpp and the channel
name catalogue from ChannelDefinitions.hpp.

Modelling conventions:
- C float values that are raw inputs are embedded as exact rationals.
- Values computed by the sampler that have no exact rational form (sqrtf,
  atan2f) are kept symbolic via the FVal expression type; no claim inspects
  the numeric value of a sampled data point, only which channel receives how
  many samples.
- The C (int) cast of a float (the SEC_TO_MS macro) is embedded as exact
  truncation toward zero on rationals.
- std::tr1::unordered_map is embedded as an association list in insertion
  order; map.insert keeps the first binding for a key, exactly as
  unordered_map::insert does.  No claim depends on iteration order.
- File-system and clock effects are outside the model: the Write path is
  embedded as the data it serializes, and the creation timestamp is an inert
  string field.
-/

namespace RFOM

/-- Symbolic value of the C float type used for sampled data points: exact
rationals for closed-form values, explicit nodes for sqrtf and atan2f whose
results are irrational in general. -/
inductive FVal where
  | q (x : ℚ)
  | sqrt (x : FVal)
  | atan2 (y x : FVal)
  | add (a b : FVal)
  | sub (a b : FVal)
  | mul (a b : FVal)
deriving DecidableEq

/-- TelemVect3 from the rFactor API: a 3-component vector of floats. -/
structure TelemVect3 where
  x : ℚ
  y : ℚ
  z : ℚ
deriving DecidableEq

/-- TelemWheelV2: per-wheel telemetry fields read by the sampler. -/
structure TelemWheelV2 where
  mRotation : ℚ
  mSuspensionDeflection : ℚ
  mRideHeight : ℚ
  mTireLoad : ℚ
  mLateralForce : ℚ
  mBrakeTemp : ℚ
  mPressure : ℚ
  mTemperatureLeft : ℚ
  mTemperatureCenter : ℚ
  mTemperatureRight : ℚ
deriving DecidableEq

/-- TelemInfoV2: one telemetry frame, restricted to the fields the plugin
reads. -/
structure TelemInfoV2 where
  mLapNumber : Int
  mLapStartET : ℚ
  mDeltaTime : ℚ
  mLocalVel : TelemVect3
  mLocalAccel : TelemVect3
  mOriX : TelemVect3
  mOriY : TelemVect3
  mOriZ : TelemVect3
  mPos : TelemVect3
  mGear : Int
  mUnfilteredThrottle : ℚ
  mUnfilteredBrake : ℚ
  mUnfilteredClutch : ℚ
  mUnfilteredSteering : ℚ
  mEngineRPM : ℚ
  mClutchRPM : ℚ
  mFuel : ℚ
  mOverheating : Bool
  mWheel : Fin 4 → TelemWheelV2

/-- VehicleScoringInfoV2: the per-vehicle scoring fields the plugin reads. -/
structure VehicleScoringInfoV2 where
  mIsPlayer : Bool
  mDriverName : String
  mVehicleName : String
  mVehicleClass : String
  mSector : Int
  mLastLapTime : ℚ
  mLastSector2 : ℚ
  mCurSector1 : ℚ
  mCurSector2 : ℚ
  mLapStartET : ℚ
deriving DecidableEq

/-- ScoringInfoV2: one scoring snapshot, restricted to the fields the plugin
reads.  mNumVehicles is the length of the vehicle list. -/
structure ScoringInfoV2 where
  mGamePhase : Nat
  mSession : Nat
  mTrackName : String
  mCurrentET : ℚ
  mVehicle : List VehicleScoringInfoV2
deriving DecidableEq

/-- kGamePhaseNotEnteredGame from LoggingPlugin.cpp. -/
def kGamePhaseNotEnteredGame : Nat := 10

/-- kGamePhaseBeforeSession from LoggingPlugin.cpp. -/
def kGamePhaseBeforeSession : Nat := 0

/-- kGamePhaseFormationLap from LoggingPlugin.cpp. -/
def kGamePhaseFormationLap : Nat := 3

/-- kGamePhaseGreenFlag from LoggingPlugin.cpp. -/
def kGamePhaseGreenFlag : Nat := 5

/-- kGamePhaseFullCourseYellow from LoggingPlugin.cpp. -/
def kGamePhaseFullCourseYellow : Nat := 6

/-- kSectorsSector1 from LoggingPlugin.cpp. -/
def kSectorsSector1 : Int := 1

/-- kSectorsSector2 from LoggingPlugin.cpp. -/
def kSectorsSector2 : Int := 2

/-- kSectorsSector3 from LoggingPlugin.cpp. -/
def kSectorsSector3 : Int := 0

/-- krFactorNumberOfSectors from LoggingPlugin.cpp. -/
def krFactorNumberOfSectors : Nat := 2

/-- kDataSource from LoggingPlugin.cpp. -/
def kDataSource : String := "rFactor"

/-- The kSessions name table from LoggingPlugin.cpp, indexed by
ScoringInfo.mSession. -/
def kSessions : List String :=
  ["Testing", "Practice", "", "", "", "Qualifying", "Warmup", "Race"]

/-- The SEC_TO_MS macro: (int)(x * 1000), a C float-to-int cast, i.e.
truncation toward zero.  For x = num/den in lowest terms, x * 1000 =
(num * 1000) / den, and Int.tdiv is exactly truncation toward zero. -/
def secToMs (x : ℚ) : Int :=
  Int.tdiv (x.num * 1000) (x.den : Int)

/-- The MSMS_TO_G macro: x * 0.101971621. -/
def msmsToG (x : ℚ) : ℚ := x * (101971621 / 1000000000)

/-- The RANGE_TO_PERCENT macro: 100.0f * x. -/
def rangeToPercent (x : ℚ) : ℚ := 100 * x

/-- The MPS_TO_KPH macro: x * 3.6f. -/
def mpsToKph (v : FVal) : FVal := .mul v (.q (36 / 10))

/-- The BOOL_TO_FLOAT macro. -/
def boolToFloat (b : Bool) : ℚ := if b then 1 else 0

/-- The RAD_TO_DEG macro: x * 57.296f. -/
def radToDeg (v : FVal) : FVal := .mul v (.q (57296 / 1000))

/-- The SPEED_MPS macro: Euclidean norm of a velocity vector (sqrtf of the
exact sum of squares). -/
def speedMps (v : TelemVect3) : FVal :=
  .sqrt (.q (v.x * v.x + v.y * v.y + v.z * v.z))

end RFOM

namespace OpenMotorsport

open RFOM

/-- DataBuffer from OpenMotorsport.cpp: an append-only sequence of float
samples. -/
structure DataBuffer where
  mData : List FVal
deriving DecidableEq

/-- DataBuffer::Write appends one value. -/
def DataBuffer.Write (b : DataBuffer) (v : FVal) : DataBuffer :=
  { mData := b.mData ++ [v] }

/-- DataBuffer::GetLength: the number of samples held. -/
def DataBuffer.GetLength (b : DataBuffer) : Nat := b.mData.length

/-- Channel from OpenMotorsport.cpp/.hpp: id, name, sample interval, units,
group, plus its owned DataBuffer. -/
structure Channel where
  mId : Int
  mName : String
  mSampleInterval : Int
  mUnits : String
  mGroup : String
  mBuffer : DataBuffer
deriving DecidableEq

/-- Modelled from the spec: the no-units sentinel kChannelNoUnits declared in
the missing OpenMotorsport.hpp header (units attribute omitted when equal). -/
def kChannelNoUnits : String := ""

/-- Modelled from the spec: the no-group sentinel kChannelNoGroup declared in
the missing OpenMotorsport.hpp header (channels in this group are emitted
directly under the channels element). -/
def kChannelNoGroup : String := ""

/-- Modelled from the spec: the variable-sample-interval sentinel
kChannelVariableSampleInterval declared in the missing OpenMotorsport.hpp
header (interval attribute omitted when equal). -/
def kChannelVariableSampleInterval : Int := -1

/-- Modelled from the spec: the default sentinel user string kSessionNoUser
declared in the missing OpenMotorsport.hpp header. -/
def kSessionNoUser : String := "Unknown User"

/-- Modelled from the spec: the default sentinel track string
kSessionNoTrackName declared in the missing OpenMotorsport.hpp header. -/
def kSessionNoTrackName : String := "Unknown Track"

/-- Modelled from the spec: the default sentinel vehicle string
kSessionNoVehicleName declared in the missing OpenMotorsport.hpp header. -/
def kSessionNoVehicleName : String := "Unknown Vehicle"

/-- Modelled from the spec: the default sentinel data source string
kSessionNoDataSource declared in the missing OpenMotorsport.hpp header. -/
def kSessionNoDataSource : String := "Unknown"

/-- Session from OpenMotorsport.cpp: the aggregate root for one recording.
The optional vehicle category and sector count are embedded as Option,
mirroring the sentinel comparisons (kSessionNoVehicleCategory and
kSessionNoSectors) in the source; the other string fields carry their
sentinel defaults directly.  The channel map is an association list keyed by
name ++ "/" ++ group.  The creation timestamp is kept as an inert ISO-8601
string since no claim depends on the clock. -/
structure Session where
  mNumSectors : Option Nat
  mVehicleCategory : Option String
  mFullName : String
  mTrackName : String
  mVehicleName : String
  mDataSource : String
  mComments : String
  mDateISO : String
  mChannels : List (String × Channel)
  mMarkers : List Int
deriving DecidableEq

/-- The Session constructor: sentinel metadata defaults, empty channel map
and marker list (mComments is a default-constructed std::string). -/
def Session.new : Session :=
  { mNumSectors := none
    mVehicleCategory := none
    mFullName := kSessionNoUser
    mTrackName := kSessionNoTrackName
    mVehicleName := kSessionNoVehicleName
    mDataSource := kSessionNoDataSource
    mComments := ""
    mDateISO := ""
    mChannels := []
    mMarkers := [] }

/-- The key under which a channel is stored: name + "/" + group. -/
def channelKey (name group : String) : String := name ++ "/" ++ group

/-- Session::AddChannel: insert under key name + "/" + group;
unordered_map::insert keeps the existing binding when the key is already
present, so a duplicate (name, group) channel is silently dropped. -/
def Session.AddChannel (s : Session) (c : Channel) : Session :=
  let key := channelKey c.mName c.mGroup
  if s.mChannels.any (fun p => p.1 = key) then s
  else { s with mChannels := s.mChannels ++ [(key, c)] }

/-- Session::AddMarker: append an absolute marker. -/
def Session.AddMarker (s : Session) (marker : Int) : Session :=
  { s with mMarkers := s.mMarkers ++ [marker] }

/-- Session::AddRelativeMarker: append the previous marker plus the offset,
or the offset itself when no marker exists yet. -/
def Session.AddRelativeMarker (s : Session) (marker : Int) : Session :=
  if s.mMarkers.length < 1 then { s with mMarkers := s.mMarkers ++ [marker] }
  else { s with mMarkers := s.mMarkers ++ [s.mMarkers.getLastD 0 + marker] }

/-- Session::GetChannel: throws "No channels." when the map is empty, throws
"Channel does not exist." when the (name, group) key is absent, and otherwise
returns the stored channel (the lookup does not mutate the session, which the
embedding reflects by returning only the channel). -/
def Session.GetChannel (s : Session) (channelName group : String) :
    Except String Channel :=
  if s.mChannels.length = 0 then .error "No channels."
  else
    let key := channelKey channelName group
    match s.mChannels.lookup key with
    | none => .error "Channel does not exist."
    | some c => .ok c

/-- The sampler's GetChannel(name, group).GetDataBuffer().Write(v) idiom:
append one value to the buffer of the channel stored under (name, group).
Every key used by SampleBlock is registered by CreateLoggingSession, so the
throwing lookup (Session.GetChannel, claim C9) never fails on this path; the
embedding updates the unique matching entry in place. -/
def Session.writeChannel (s : Session) (channelName group : String)
    (v : FVal) : Session :=
  let key := channelKey channelName group
  { s with
    mChannels := s.mChannels.map fun p =>
      if p.1 = key then (p.1, { p.2 with mBuffer := p.2.mBuffer.Write v })
      else p }

end OpenMotorsport

namespace RFOM

open OpenMotorsport

/-- kUnitsKPH from ChannelDefinitions.hpp. -/
def kUnitsKPH : String := "kph"

/-- kUnitsGee from ChannelDefinitions.hpp. -/
def kUnitsGee : String := "g"

/-- kUnitsDegrees from ChannelDefinitions.hpp. -/
def kUnitsDegrees : String := "deg"

/-- kUnitsLitres from ChannelDefinitions.hpp. -/
def kUnitsLitres : String := "l"

/-- kUnitsRPM from ChannelDefinitions.hpp. -/
def kUnitsRPM : String := "rpm"

/-- kUnitsCelcius from ChannelDefinitions.hpp. -/
def kUnitsCelcius : String := "c"

/-- kUnitsBoolean from ChannelDefinitions.hpp. -/
def kUnitsBoolean : String := "boolean"

/-- kUnitsPercent from ChannelDefinitions.hpp. -/
def kUnitsPercent : String := "%"

/-- kUnitsGear from ChannelDefinitions.hpp. -/
def kUnitsGear : String := "gear"

/-- kUnitsMeters from ChannelDefinitions.hpp. -/
def kUnitsMeters : String := "m"

/-- kUnitsNewtons from ChannelDefinitions.hpp. -/
def kUnitsNewtons : String := "n"

/-- kUnitsRadiansPerSecond from ChannelDefinitions.hpp. -/
def kUnitsRadiansPerSecond : String := "rad/sec"

/-- kUnitsPascal from ChannelDefinitions.hpp. -/
def kUnitsPascal : String := "pa"

/-- Modelled from the spec: kUnitsMilliseconds, used by the synchronous
plugin variant but absent from the ChannelDefinitions.hpp in the sources. -/
def kUnitsMilliseconds : String := "ms"

/-- Modelled from the spec: the "Acceleration" group name kGroupAcceleration,
used by the synchronous plugin variant but absent from the
ChannelDefinitions.hpp in the sources. -/
def kGroupAcceleration : String := "Acceleration"

/-- kGroupPosition from ChannelDefinitions.hpp. -/
def kGroupPosition : String := "Position"

/-- kGroupDriver from ChannelDefinitions.hpp. -/
def kGroupDriver : String := "Driver"

/-- kGroupEngine from ChannelDefinitions.hpp. -/
def kGroupEngine : String := "Engine"

/-- kChannelSpeed from ChannelDefinitions.hpp. -/
def kChannelSpeed : String := "Speed"

/-- kChannelAccelerationX from ChannelDefinitions.hpp. -/
def kChannelAccelerationX : String := "Acceleration X"

/-- kChannelAccelerationY from ChannelDefinitions.hpp. -/
def kChannelAccelerationY : String := "Acceleration Y"

/-- kChannelAccelerationZ from ChannelDefinitions.hpp. -/
def kChannelAccelerationZ : String := "Acceleration Z"

/-- kChannelPitch from ChannelDefinitions.hpp. -/
def kChannelPitch : String := "Pitch"

/-- kChannelRoll from ChannelDefinitions.hpp. -/
def kChannelRoll : String := "Roll"

/-- Modelled from the spec: the "Time" channel name kChannelTime, used by the
synchronous plugin variant but absent from the ChannelDefinitions.hpp in the
sources. -/
def kChannelTime : String := "Time"

/-- Modelled from the spec: the "Distance" channel name kChannelDistance,
used by the synchronous plugin variant but absent from the
ChannelDefinitions.hpp in the sources. -/
def kChannelDistance : String := "Distance"

/-- kChannelGear from ChannelDefinitions.hpp. -/
def kChannelGear : String := "Gear"

/-- kChannelThrottle from ChannelDefinitions.hpp. -/
def kChannelThrottle : String := "Throttle"

/-- kChannelBrake from ChannelDefinitions.hpp. -/
def kChannelBrake : String := "Brake"

/-- kChannelClutch from ChannelDefinitions.hpp. -/
def kChannelClutch : String := "Clutch"

/-- kChannelSteering from ChannelDefinitions.hpp. -/
def kChannelSteering : String := "Steering"

/-- kChannelRPM from ChannelDefinitions.hpp. -/
def kChannelRPM : String := "RPM"

/-- kChannelClutchRPM from ChannelDefinitions.hpp. -/
def kChannelClutchRPM : String := "Clutch RPM"

/-- kChannelFuel from ChannelDefinitions.hpp. -/
def kChannelFuel : String := "Fuel"

/-- kChannelOverheating from ChannelDefinitions.hpp. -/
def kChannelOverheating : String := "Overheating"

/-- kGroupWheelRF from ChannelDefinitions.hpp. -/
def kGroupWheelRF : String := "Wheel RF"

/-- kGroupWheelRR from ChannelDefinitions.hpp. -/
def kGroupWheelRR : String := "Wheel RR"

/-- kGroupWheelLF from ChannelDefinitions.hpp. -/
def kGroupWheelLF : String := "Wheel LF"

/-- kGroupWheelLR from ChannelDefinitions.hpp, line 69: the macro is defined
verbatim as the string "Wheel RF" (not "Wheel LR"), duplicating
kGroupWheelRF. -/
def kGroupWheelLR : String := "Wheel RF"

/-- kChannelRotation from ChannelDefinitions.hpp. -/
def kChannelRotation : String := "Rotation"

/-- kChannelSuspensionDeflection from ChannelDefinitions.hpp. -/
def kChannelSuspensionDeflection : String := "Suspension Deflection"

/-- kChannelRideHeight from ChannelDefinitions.hpp, line 73: the macro is
defined verbatim as the string "Right Height" (not "Ride Height"). -/
def kChannelRideHeight : String := "Right Height"

/-- kChannelTireLoad from ChannelDefinitions.hpp. -/
def kChannelTireLoad : String := "Tire Load"

/-- kChannelLateralForce from ChannelDefinitions.hpp. -/
def kChannelLateralForce : String := "Lateral Force"

/-- kChannelBrakeTemperature from ChannelDefinitions.hpp. -/
def kChannelBrakeTemperature : String := "Brake Temperature"

/-- kChannelPressure from ChannelDefinitions.hpp. -/
def kChannelPressure : String := "Pressure"

/-- kChannelTemperatureLeft from ChannelDefinitions.hpp. -/
def kChannelTemperatureLeft : String := "Temperature Left"

/-- kChannelTemperatureCenter from ChannelDefinitions.hpp. -/
def kChannelTemperatureCenter : String := "Temperature Center"

/-- kChannelTemperatureRight from ChannelDefinitions.hpp. -/
def kChannelTemperatureRight : String := "Temperature Right"

/-- kNumberOfWheels from ChannelDefinitions.hpp. -/
def kNumberOfWheels : Nat := 4

/-- The kWheels static array from ChannelDefinitions.hpp, in source order:
{ kGroupWheelLF, kGroupWheelRF, kGroupWheelLR, kGroupWheelRR }.  Because of
the kGroupWheelLR definition, entries 1 and 2 are both "Wheel RF". -/
def kWheels : Fin 4 → String
  | 0 => kGroupWheelLF
  | 1 => kGroupWheelRF
  | 2 => kGroupWheelLR
  | 3 => kGroupWheelRR

end RFOM

namespace OpenMotorsport

/-- One channel entry of the metadata document: id, optional units attribute,
optional interval attribute, and the name child (Session::_createChannelXmlNode). -/
structure ChannelMeta where
  id : Int
  units : Option String
  interval : Option Int
  name : String
deriving DecidableEq

/-- The metadata document (meta.xml) produced by Session::_writeMetaXml,
abstracted to the elements and attributes that are actually linked into the
document tree. -/
structure MetaDoc where
  user : String
  vehicleName : String
  vehicleCategory : Option String
  venueName : String
  date : String
  dataSource : String
  comments : String
  ungroupedChannels : List ChannelMeta
  groups : List (String × List ChannelMeta)
  sectors : Option Nat
  markers : List Int
deriving DecidableEq

/-- Session::_createChannelXmlNode: the units attribute is written only when
different from kChannelNoUnits, the interval attribute only when different
from kChannelVariableSampleInterval. -/
def channelMetaOf (c : Channel) : ChannelMeta :=
  { id := c.mId
    units := if c.mUnits ≠ kChannelNoUnits then some c.mUnits else none
    interval :=
      if c.mSampleInterval ≠ kChannelVariableSampleInterval then
        some c.mSampleInterval
      else none
    name := c.mName }

/-- One step of the channel/group placement loop of Session::_writeMetaXml: a
channel with a real group goes under its group node, which is created on
first use; a channel in kChannelNoGroup goes directly under the channels
element. -/
def placeChannel (acc : List ChannelMeta × List (String × List ChannelMeta))
    (c : Channel) : List ChannelMeta × List (String × List ChannelMeta) :=
  if c.mGroup ≠ kChannelNoGroup then
    if acc.2.any (fun p => p.1 = c.mGroup) then
      (acc.1, acc.2.map fun p =>
        if p.1 = c.mGroup then (p.1, p.2 ++ [channelMetaOf c]) else p)
    else (acc.1, acc.2 ++ [(c.mGroup, [channelMetaOf c])])
  else (acc.1 ++ [channelMetaOf c], acc.2)

/-- Session::_writeMetaXml.  Note on the vehicle category: the source (lines
162 to 165 of OpenMotorsport.cpp) creates the category element and fills in
its text, but never links it into the vehicle element (there is no
LinkEndChild call for it), so the emitted document never contains a category
regardless of mVehicleCategory; the embedding records that observable output
as a constant none.  The sectors attribute is written only when mNumSectors
differs from its sentinel, which the Option field captures. -/
def Session.writeMetaXml (s : Session) : MetaDoc :=
  let placed := (s.mChannels.map Prod.snd).foldl placeChannel ([], [])
  { user := s.mFullName
    vehicleName := s.mVehicleName
    vehicleCategory := none
    venueName := s.mTrackName
    date := s.mDateISO
    dataSource := s.mDataSource
    comments := s.mComments
    ungroupedChannels := placed.1
    groups := placed.2
    sectors := s.mNumSectors
    markers := s.mMarkers }

/-- The archive produced by Session::Write: the metadata document plus one
binary entry per channel named data/<id>.bin whose payload is the channel's
sample sequence (GetSize = 4 bytes per sample, so the entry determines the
sample count). -/
structure Archive where
  metaXml : MetaDoc
  dataEntries : List (Int × Nat)
deriving DecidableEq

/-- Session::Write, abstracted to the data it serializes (zip I/O itself is
outside the model). -/
def Session.Write (s : Session) : Archive :=
  { metaXml := s.writeMetaXml
    dataEntries := s.mChannels.map fun p => (p.2.mId, p.2.mBuffer.GetLength) }

end OpenMotorsport

namespace LoggingPlugin

open RFOM OpenMotorsport

/-- The configuration values consumed by the plugin: the sampling interval in
milliseconds (kConfigurationSampleInterval) and the minimum-lap policy flag
(kConfigurationRequireOneLap, read in saveSession). -/
structure Config where
  samplingInterval : Int
  requireOneLap : Bool
deriving DecidableEq

/-- The MS_TO_SEC macro applied to the cached sampling interval:
mSamplingIntervalSeconds = (float)mSamplingInterval / 1000. -/
def samplingIntervalSeconds (cfg : Config) : ℚ :=
  (cfg.samplingInterval : ℚ) / 1000

/-- The member state of LoggingPlugin (synchronous variant): the active
session, the logging flag, phase tracking, sector tracking, the elapsed-time
and cadence accumulators, and the distance-integration state. -/
structure PluginState where
  cfg : Config
  mSession : Option Session
  mIsLogging : Bool
  mEnterPhase : Nat
  mCurrentPhase : Nat
  mCurrentSector : Int
  mSavedMetaData : Bool
  mTotalElapsed : ℚ
  mFirstLapET : ℚ
  mEnterLapNumber : Int
  mCurrentLapNumber : Int
  mTimeSinceLastSample : ℚ
  mHasPreviousPosition : Bool
  mPreviousPosition : TelemVect3
  mCumulativeDistance : FVal
deriving DecidableEq

/-- The channel construction sequence of LoggingPlugin::CreateLoggingSession,
in source order, as (name, units, group) triples: Acceleration X/Y/Z,
Position (Speed, Pitch, Roll, Time, Distance), Driver, Engine, then ten
channels for each of the four kWheels entries.  Ids are assigned by position,
mirroring the channelID++ counter (which advances even when AddChannel drops
a duplicate). -/
def channelCreationOrder : List (String × String × String) :=
  [(kChannelAccelerationX, kUnitsGee, kGroupAcceleration),
   (kChannelAccelerationY, kUnitsGee, kGroupAcceleration),
   (kChannelAccelerationZ, kUnitsGee, kGroupAcceleration),
   (kChannelSpeed, kUnitsKPH, kGroupPosition),
   (kChannelPitch, kUnitsDegrees, kGroupPosition),
   (kChannelRoll, kUnitsDegrees, kGroupPosition),
   (kChannelTime, kUnitsMilliseconds, kGroupPosition),
   (kChannelDistance, kUnitsMeters, kGroupPosition),
   (kChannelGear, kUnitsGear, kGroupDriver),
   (kChannelThrottle, kUnitsPercent, kGroupDriver),
   (kChannelBrake, kUnitsPercent, kGroupDriver),
   (kChannelClutch, kUnitsPercent, kGroupDriver),
   (kChannelSteering, kUnitsPercent, kGroupDriver),
   (kChannelRPM, kUnitsRPM, kGroupEngine),
   (kChannelClutchRPM, kUnitsRPM, kGroupEngine),
   (kChannelFuel, kUnitsLitres, kGroupEngine),
   (kChannelOverheating, kUnitsBoolean, kGroupEngine)]
  ++ (((List.finRange 4).map fun i =>
        [(kChannelRotation, kUnitsRadiansPerSecond, kWheels i),
         (kChannelSuspensionDeflection, kUnitsMeters, kWheels i),
         (kChannelRideHeight, kUnitsMeters, kWheels i),
         (kChannelTireLoad, kUnitsNewtons, kWheels i),
         (kChannelLateralForce, kUnitsNewtons, kWheels i),
         (kChannelBrakeTemperature, kUnitsCelcius, kWheels i),
         (kChannelPressure, kUnitsPascal, kWheels i),
         (kChannelTemperatureLeft, kUnitsCelcius, kWheels i),
         (kChannelTemperatureCenter, kUnitsCelcius, kWheels i),
         (kChannelTemperatureRight, kUnitsCelcius, kWheels i)]).flatten)

/-- LoggingPlugin::CreateLoggingSession: a fresh Session with the fixed
channel catalogue registered through Session.AddChannel in source order. -/
def CreateLoggingSession (samplingInterval : Int) : Session :=
  channelCreationOrder.enum.foldl
    (fun s p =>
      s.AddChannel
        { mId := (p.1 : Int)
          mName := p.2.1
          mSampleInterval := samplingInterval
          mUnits := p.2.2.1
          mGroup := p.2.2.2
          mBuffer := ⟨[]⟩ })
    Session.new

/-- LoggingPlugin::SampleBlock: derives speed, pitch, roll and cumulative
distance from the frame and appends exactly one value per GetChannel/Write
call, in source order.  The mSession = none case is unreachable on the
modelled paths (in C++ it would dereference a null pointer). -/
def SampleBlock (st : PluginState) (info : TelemInfoV2) : PluginState :=
  let st := { st with mCurrentLapNumber := info.mLapNumber }
  let speed := speedMps info.mLocalVel
  let fwd : TelemVect3 := ⟨-info.mOriX.z, -info.mOriY.z, -info.mOriZ.z⟩
  let lft : TelemVect3 := ⟨info.mOriX.x, info.mOriY.x, info.mOriZ.x⟩
  let pitch := radToDeg
    (.atan2 (.q fwd.y) (.sqrt (.q (fwd.x * fwd.x + fwd.z * fwd.z))))
  let roll := radToDeg
    (.atan2 (.q lft.y) (.sqrt (.q (lft.x * lft.x + lft.z * lft.z))))
  let st :=
    if st.mHasPreviousPosition then
      { st with mCumulativeDistance :=
          (FVal.add st.mCumulativeDistance
            (.sqrt (.q
              ((st.mPreviousPosition.x - info.mPos.x) ^ 2 +
               (st.mPreviousPosition.y - info.mPos.y) ^ 2 +
               (st.mPreviousPosition.z - info.mPos.z) ^ 2)))) }
    else st
  let st := { st with mPreviousPosition := info.mPos, mHasPreviousPosition := true }
  match st.mSession with
  | none => st
  | some s =>
    let s := s.writeChannel kChannelAccelerationX kGroupAcceleration
      (.q (msmsToG info.mLocalAccel.x))
    let s := s.writeChannel kChannelAccelerationY kGroupAcceleration
      (.q (msmsToG info.mLocalAccel.y))
    let s := s.writeChannel kChannelAccelerationZ kGroupAcceleration
      (.q (msmsToG info.mLocalAccel.z))
    let s := s.writeChannel kChannelSpeed kGroupPosition (mpsToKph speed)
    let s := s.writeChannel kChannelPitch kGroupPosition pitch
    let s := s.writeChannel kChannelRoll kGroupPosition roll
    let s := s.writeChannel kChannelTime kGroupPosition
      (.q ((secToMs st.mTotalElapsed : Int) : ℚ))
    let s := s.writeChannel kChannelDistance kGroupPosition st.mCumulativeDistance
    let s := s.writeChannel kChannelGear kGroupDriver (.q (info.mGear : ℚ))
    let s := s.writeChannel kChannelThrottle kGroupDriver
      (.q (rangeToPercent info.mUnfilteredThrottle))
    let s := s.writeChannel kChannelBrake kGroupDriver
      (.q (rangeToPercent info.mUnfilteredBrake))
    let s := s.writeChannel kChannelClutch kGroupDriver
      (.q (rangeToPercent info.mUnfilteredClutch))
    let s := s.writeChannel kChannelSteering kGroupDriver
      (.q (rangeToPercent info.mUnfilteredSteering))
    let s := s.writeChannel kChannelRPM kGroupEngine (.q info.mEngineRPM)
    let s := s.writeChannel kChannelClutchRPM kGroupEngine (.q info.mClutchRPM)
    let s := s.writeChannel kChannelFuel kGroupEngine (.q info.mFuel)
    let s := s.writeChannel kChannelOverheating kGroupEngine
      (.q (boolToFloat info.mOverheating))
    let s := (List.finRange 4).foldl
      (fun s i =>
        let wheel := info.mWheel i
        let s := s.writeChannel kChannelSuspensionDeflection (kWheels i)
          (.q wheel.mSuspensionDeflection)
        let s := s.writeChannel kChannelRotation (kWheels i)
          (.q (-wheel.mRotation))
        let s := s.writeChannel kChannelRideHeight (kWheels i)
          (.q wheel.mRideHeight)
        let s := s.writeChannel kChannelTireLoad (kWheels i)
          (.q wheel.mTireLoad)
        let s := s.writeChannel kChannelLateralForce (kWheels i)
          (.q wheel.mLateralForce)
        let s := s.writeChannel kChannelBrakeTemperature (kWheels i)
          (.q wheel.mBrakeTemp)
        let s := s.writeChannel kChannelPressure (kWheels i)
          (.q wheel.mPressure)
        let s := s.writeChannel kChannelTemperatureLeft (kWheels i)
          (.q wheel.mTemperatureLeft)
        let s := s.writeChannel kChannelTemperatureCenter (kWheels i)
          (.q wheel.mTemperatureCenter)
        s.writeChannel kChannelTemperatureRight (kWheels i)
          (.q wheel.mTemperatureRight))
      s
    { st with mSession := some s }

/-- LoggingPlugin::startLogging: reset the recording counters, create the
fixed-catalogue Session, mark logging active, and immediately sample the
first frame. -/
def startLogging (st : PluginState) (info : TelemInfoV2) : PluginState :=
  let st := { st with
    mCurrentSector := kSectorsSector1
    mSavedMetaData := false
    mTotalElapsed := 0
    mFirstLapET := 0
    mEnterLapNumber := info.mLapNumber
    mCurrentLapNumber := info.mLapNumber
    mTimeSinceLastSample := 0
    mIsLogging := true
    mHasPreviousPosition := false
    mPreviousPosition := ⟨0, 0, 0⟩
    mCumulativeDistance := .q 0
    mSession := some (CreateLoggingSession st.cfg.samplingInterval) }
  SampleBlock st info

/-- LoggingPlugin::saveSession: skip the write entirely when the
minimum-lap policy is configured and fewer than one lap was completed;
otherwise flush the Session through Session::Write (the result is the
archive handed to the file system). -/
def saveSession (st : PluginState) : Option Archive :=
  if st.cfg.requireOneLap ∧ st.mCurrentLapNumber - st.mEnterLapNumber < 1 then
    none
  else st.mSession.map Session.Write

/-- LoggingPlugin::stopLogging: clear the logging flag, flush via
saveSession, drop the Session and reset the realtime-entry phase. -/
def stopLogging (st : PluginState) : PluginState × Option Archive :=
  let st := { st with mIsLogging := false }
  let flushed := saveSession st
  ({ st with mSession := none, mEnterPhase := kGamePhaseNotEnteredGame },
   flushed)

/-- LoggingPlugin::saveMetadata: write driver, vehicle, track, data source,
vehicle category, sector count and session-type comment into the Session. -/
def saveMetadata (st : PluginState) (info : ScoringInfoV2)
    (vinfo : VehicleScoringInfoV2) : PluginState :=
  { st with mSession := st.mSession.map fun s =>
      { s with
        mFullName := vinfo.mDriverName
        mVehicleName := vinfo.mVehicleName
        mTrackName := info.mTrackName
        mDataSource := kDataSource
        mVehicleCategory := some vinfo.mVehicleClass
        mNumSectors := some krFactorNumberOfSectors
        mComments := kSessions.getD info.mSession "" } }

/-- LoggingPlugin::saveSectorTime (synchronous variant): switch on the
already-updated mCurrentSector (the sector just entered).  Entering sector 1
records (mLastLapTime - mLastSector2) relative when a last-lap time exists
and otherwise nothing; entering sector 2 records mCurSector1 relative when
known and otherwise an absolute marker at mTotalElapsed; entering sector 3
(value 0) records (mCurSector2 - mCurSector1) relative when known and
otherwise an absolute marker at mTotalElapsed. -/
def saveSectorTime (st : PluginState) (info : ScoringInfoV2)
    (vinfo : VehicleScoringInfoV2) : PluginState :=
  if st.mCurrentSector = kSectorsSector1 then
    if vinfo.mLastLapTime > 0 then
      { st with mSession := st.mSession.map fun s =>
          s.AddRelativeMarker (secToMs (vinfo.mLastLapTime - vinfo.mLastSector2)) }
    else st
  else if st.mCurrentSector = kSectorsSector2 then
    if vinfo.mCurSector1 > 0 then
      { st with mSession := st.mSession.map fun s =>
          s.AddRelativeMarker (secToMs vinfo.mCurSector1) }
    else
      { st with mSession := st.mSession.map fun s =>
          s.AddMarker (secToMs st.mTotalElapsed) }
  else if st.mCurrentSector = kSectorsSector3 then
    if vinfo.mCurSector2 > 0 then
      { st with mSession := st.mSession.map fun s =>
          s.AddRelativeMarker (secToMs (vinfo.mCurSector2 - vinfo.mCurSector1)) }
    else
      { st with mSession := st.mSession.map fun s =>
          s.AddMarker (secToMs st.mTotalElapsed) }
  else st

/-- LoggingPlugin::UpdateScoring: restart detection (a numerically lower
phase while logging forces a stop), phase tracking, then metadata capture and
sector-transition handling for the first player vehicle.  The second
component is the archive flushed by a stop, if any. -/
def UpdateScoring (st : PluginState) (info : ScoringInfoV2) :
    PluginState × Option Archive :=
  let stopped :=
    if info.mGamePhase < st.mCurrentPhase then
      if st.mIsLogging then stopLogging st else (st, none)
    else (st, none)
  let st := { stopped.1 with mCurrentPhase := info.mGamePhase }
  if ¬ st.mIsLogging then (st, stopped.2)
  else
    match info.mVehicle.find? (fun v => v.mIsPlayer) with
    | none => (st, stopped.2)
    | some vinfo =>
      let st :=
        if ¬ st.mSavedMetaData then
          { saveMetadata st info vinfo with mSavedMetaData := true }
        else st
      let st :=
        if vinfo.mSector ≠ st.mCurrentSector then
          saveSectorTime { st with mCurrentSector := vinfo.mSector } info vinfo
        else st
      (st, stopped.2)

/-- The tail of LoggingPlugin::UpdateTelemetry that runs once logging is
active: the retrospective out-lap marker on the first lap-number increase,
the cadence-gated SampleBlock call, and the accumulator updates. -/
def updateTelemetryBody (st : PluginState) (info : TelemInfoV2) : PluginState :=
  let st :=
    if info.mLapNumber > st.mEnterLapNumber ∧ st.mFirstLapET = 0 then
      let st := { st with mFirstLapET := st.mTotalElapsed }
      { st with mSession := st.mSession.map fun s =>
          s.AddMarker (secToMs st.mFirstLapET) }
    else st
  let st :=
    if st.mTimeSinceLastSample ≥ samplingIntervalSeconds st.cfg then
      { SampleBlock st info with mTimeSinceLastSample := 0 }
    else st
  { st with
    mTotalElapsed := st.mTotalElapsed + info.mDeltaTime
    mTimeSinceLastSample := st.mTimeSinceLastSample + info.mDeltaTime }

/-- LoggingPlugin::UpdateTelemetry: on the first frame after EnterRealtime
the entry phase is latched and logging starts immediately for
before-session, green-flag or full-course-yellow entry; otherwise logging
starts on the first frame with mCurrentPhase at green flag or later and a
positive mLapStartET, and frames before that are discarded by the early
return. -/
def UpdateTelemetry (st : PluginState) (info : TelemInfoV2) : PluginState :=
  let st :=
    if st.mEnterPhase = kGamePhaseNotEnteredGame then
      let st := { st with mEnterPhase := st.mCurrentPhase }
      if st.mEnterPhase = kGamePhaseBeforeSession ∨
          st.mEnterPhase = kGamePhaseGreenFlag ∨
          st.mEnterPhase = kGamePhaseFullCourseYellow then
        startLogging st info
      else st
    else st
  if st.mIsLogging then updateTelemetryBody st info
  else if kGamePhaseGreenFlag ≤ st.mCurrentPhase ∧ 0 < info.mLapStartET then
    updateTelemetryBody (startLogging st info) info
  else st

/-- LoggingPlugin::EnterRealtime: reset the latched entry phase. -/
def EnterRealtime (st : PluginState) : PluginState :=
  { st with mEnterPhase := kGamePhaseNotEnteredGame }

/-- LoggingPlugin::ExitRealtime: stop logging if currently logging. -/
def ExitRealtime (st : PluginState) : PluginState × Option Archive :=
  if st.mIsLogging then stopLogging st else (st, none)

end LoggingPlugin

namespace LoggingPlugin

open RFOM OpenMotorsport

/-- The marker list of the active session (empty when no session exists). -/
def sessionMarkers (st : PluginState) : List Int :=
  (st.mSession.map Session.mMarkers).getD []

/-- The sample count of the (name, group) channel of the active session. -/
def chanLen (st : PluginState) (channelName group : String) : Option Nat :=
  st.mSession.bind fun s =>
    (s.mChannels.lookup (channelKey channelName group)).map fun c =>
      c.mBuffer.GetLength

/-- The state after one scoring update (discarding the flushed archive). -/
def scoringStep (st : PluginState) (u : ScoringInfoV2) : PluginState :=
  (UpdateScoring st u).1

/-- The state after a sequence of scoring updates. -/
def scoringRun (st : PluginState) (us : List ScoringInfoV2) : PluginState :=
  us.foldl scoringStep st

/-- A concrete telemetry frame with all physics fields zero, delta-time of
10 ms and lap number 0. -/
def frame0 : TelemInfoV2 :=
  { mLapNumber := 0, mLapStartET := 0, mDeltaTime := 1 / 100,
    mLocalVel := ⟨0, 0, 0⟩, mLocalAccel := ⟨0, 0, 0⟩,
    mOriX := ⟨0, 0, 0⟩, mOriY := ⟨0, 0, 0⟩, mOriZ := ⟨0, 0, 0⟩,
    mPos := ⟨0, 0, 0⟩, mGear := 0, mUnfilteredThrottle := 0,
    mUnfilteredBrake := 0, mUnfilteredClutch := 0, mUnfilteredSteering := 0,
    mEngineRPM := 0, mClutchRPM := 0, mFuel := 0, mOverheating := false,
    mWheel := fun _ => ⟨0, 0, 0, 0, 0, 0, 0, 0, 0, 0⟩ }

/-- The default configuration: 200 ms sampling interval, no minimum-lap
policy. -/
def cfg0 : Config := { samplingInterval := 200, requireOneLap := false }

/-- A plugin state that is not logging, with the green-flag phase current and
realtime already entered (the entry phase latched at green flag). -/
def idleState : PluginState :=
  { cfg := cfg0, mSession := none, mIsLogging := false,
    mEnterPhase := kGamePhaseGreenFlag, mCurrentPhase := kGamePhaseGreenFlag,
    mCurrentSector := kSectorsSector1, mSavedMetaData := false,
    mTotalElapsed := 0, mFirstLapET := 0, mEnterLapNumber := 0,
    mCurrentLapNumber := 0, mTimeSinceLastSample := 0,
    mHasPreviousPosition := false, mPreviousPosition := ⟨0, 0, 0⟩,
    mCumulativeDistance := .q 0 }

/-- The state of a logging run right after startLogging on the first frame:
the full fixed catalogue is registered and the first frame has been
sampled. -/
def started : PluginState := startLogging idleState frame0

/-- An out-lap scoring update at green flag for a single player vehicle whose
last-lap time and sector splits all read zero, reporting the given current
sector. -/
def outlapUpd (sector : Int) : ScoringInfoV2 :=
  { mGamePhase := kGamePhaseGreenFlag, mSession := 1, mTrackName := "Toban",
    mCurrentET := 0,
    mVehicle := [{ mIsPlayer := true, mDriverName := "Driver",
                   mVehicleName := "rF3", mVehicleClass := "GT",
                   mSector := sector, mLastLapTime := 0, mLastSector2 := 0,
                   mCurSector1 := 0, mCurSector2 := 0, mLapStartET := 0 }] }

/-- The out-lap sector sequence of claim C1. -/
def outlapSeq : List Int := [1, 1, 2, 2, 0, 0, 1]

/-- A mid-out-lap logging state: the started state with 5 s of elapsed
time accumulated. -/
def c1State : PluginState := { started with mTotalElapsed := 5 }

/-- A scoring update at green flag reporting the player entering sector 2
with a known last lap (100 s), last sector-2 split 40 s and current sector-1
split 30 s. -/
def c2Upd : ScoringInfoV2 :=
  { mGamePhase := kGamePhaseGreenFlag, mSession := 1, mTrackName := "Toban",
    mCurrentET := 0,
    mVehicle := [{ mIsPlayer := true, mDriverName := "Driver",
                   mVehicleName := "rF3", mVehicleClass := "GT",
                   mSector := 2, mLastLapTime := 100, mLastSector2 := 40,
                   mCurSector1 := 30, mCurSector2 := 0, mLapStartET := 0 }] }

/-- A minimal logging state used to instantiate the general theorems:
logging is active on an empty session, current sector 3 (value 0), metadata
already captured, 5 s elapsed. -/
def miniLogging : PluginState :=
  { cfg := cfg0, mSession := some Session.new, mIsLogging := true,
    mEnterPhase := kGamePhaseGreenFlag, mCurrentPhase := kGamePhaseGreenFlag,
    mCurrentSector := kSectorsSector3, mSavedMetaData := true,
    mTotalElapsed := 5, mFirstLapET := 0, mEnterLapNumber := 0,
    mCurrentLapNumber := 0, mTimeSinceLastSample := 0,
    mHasPreviousPosition := true, mPreviousPosition := ⟨0, 0, 0⟩,
    mCumulativeDistance := .q 0 }

/-- Player vehicle data entering sector 1 with a known last lap: last-lap
time 100 s, last sector-2 split 40 s. -/
def c2WitVinfo : VehicleScoringInfoV2 :=
  { mIsPlayer := true, mDriverName := "Driver", mVehicleName := "rF3",
    mVehicleClass := "GT", mSector := 1, mLastLapTime := 100,
    mLastSector2 := 40, mCurSector1 := 0, mCurSector2 := 0, mLapStartET := 0 }

/-- A scoring update at green flag carrying exactly the c2WitVinfo player
entry. -/
def c2WitUpd : ScoringInfoV2 :=
  { mGamePhase := kGamePhaseGreenFlag, mSession := 1, mTrackName := "Toban",
    mCurrentET := 0, mVehicle := [c2WitVinfo] }

/-- A state awaiting the green flag: realtime was entered during the
formation lap (phase 3 latched), not logging, formation phase current. -/
def awaitingState : PluginState :=
  { idleState with
    mEnterPhase := kGamePhaseFormationLap
    mCurrentPhase := kGamePhaseFormationLap }

/-- A logging state at full-course yellow used to exercise restart
detection. -/
def c5State : PluginState :=
  { miniLogging with
    mCurrentPhase := kGamePhaseFullCourseYellow
    mCurrentLapNumber := 3 }

/-- A scoring update whose phase (before session) is numerically lower than
full-course yellow, signalling an in-session restart. -/
def c5Upd : ScoringInfoV2 :=
  { mGamePhase := kGamePhaseBeforeSession, mSession := 7,
    mTrackName := "Toban", mCurrentET := 0, mVehicle := [] }

/-- A channel fixture used by the Session-level claims. -/
def chan0 : Channel :=
  { mId := 0, mName := kChannelSpeed, mSampleInterval := 200,
    mUnits := kUnitsKPH, mGroup := kGroupPosition, mBuffer := ⟨[]⟩ }

/-- A session holding exactly the chan0 fixture. -/
def oneChanSession : Session :=
  { Session.new with
    mChannels := [(channelKey chan0.mName chan0.mGroup, chan0)] }

/-- A session with one recorded marker at 10 ms. -/
def oneMarkSession : Session := { Session.new with mMarkers := [10] }

/-- A session whose vehicle category has been set, with one registered
channel, as fed to the session writer. -/
def c6Session : Session :=
  { oneChanSession with mVehicleCategory := some "GT", mVehicleName := "rF3" }

end LoggingPlugin

open RFOM OpenMotorsport LoggingPlugin

/-- C8: AddRelativeMarker on a session with an empty marker list behaves
identically to AddMarker; on a non-empty list it appends the previous last
marker plus the offset; in both cases the list grows by exactly one element
and the existing prefix is unchanged. -/
theorem C8_addRelativeMarker_behavior (s : Session) (m : Int) :
    (s.mMarkers = [] →
      Session.AddRelativeMarker s m = Session.AddMarker s m) ∧
    (s.mMarkers ≠ [] →
      (Session.AddRelativeMarker s m).mMarkers =
        s.mMarkers ++ [s.mMarkers.getLastD 0 + m]) ∧
    (Session.AddRelativeMarker s m).mMarkers.length = s.mMarkers.length + 1 ∧
    (Session.AddRelativeMarker s m).mMarkers.take s.mMarkers.length =
      s.mMarkers := by
  refine ⟨?_, ?_, ?_, ?_⟩
  · intro h
    simp [Session.AddRelativeMarker, Session.AddMarker, h]
  · intro h
    simp [Session.AddRelativeMarker, Nat.lt_one_iff, List.length_eq_zero, h]
  · by_cases h : s.mMarkers = [] <;>
      simp [Session.AddRelativeMarker, Nat.lt_one_iff, List.length_eq_zero, h]
  · by_cases h : s.mMarkers = [] <;>
      simp [Session.AddRelativeMarker, Nat.lt_one_iff, List.length_eq_zero, h,
        List.take_left]

/-- Witness for C8 at a session with one marker 10 and offset 5. -/
theorem C8_addRelativeMarker_behavior_witness :
    (Session.AddRelativeMarker oneMarkSession 5).mMarkers =
      oneMarkSession.mMarkers ++ [oneMarkSession.mMarkers.getLastD 0 + 5] :=
  (C8_addRelativeMarker_behavior oneMarkSession 5).2.1 (by decide)

/-- C9: GetChannel returns the stored channel when the (name, group) pair is
registered, and fails with an error exactly when the session has no channels
at all or the pair is not registered. -/
theorem C9_getChannel_spec (s : Session) (n g : String) :
    (∀ c, s.mChannels.lookup (channelKey n g) = some c →
      Session.GetChannel s n g = .ok c) ∧
    ((∃ e, Session.GetChannel s n g = .error e) ↔
      (s.mChannels = [] ∨ s.mChannels.lookup (channelKey n g) = none)) := by
  constructor
  · intro c hc
    have hne : ¬ s.mChannels.length = 0 := by
      intro h0
      rw [List.length_eq_zero] at h0
      simp [h0] at hc
    simp [Session.GetChannel, hne, hc]
  · constructor
    · intro he
      obtain ⟨e, he⟩ := he
      by_cases h0 : s.mChannels.length = 0
      · exact Or.inl (List.length_eq_zero.mp h0)
      · refine Or.inr ?_
        cases hl : s.mChannels.lookup (channelKey n g) with
        | none => rfl
        | some c => simp [Session.GetChannel, h0, hl] at he
    · intro h
      rcases h with h | h
      · exact ⟨"No channels.", by simp [Session.GetChannel, h]⟩
      · by_cases h0 : s.mChannels.length = 0
        · exact ⟨"No channels.", by simp [Session.GetChannel, h0]⟩
        · exact ⟨"Channel does not exist.", by simp [Session.GetChannel, h0, h]⟩

/-- Witness for C9 at a one-channel session: the registered pair is
returned. -/
theorem C9_getChannel_spec_witness :
    Session.GetChannel oneChanSession kChannelSpeed kGroupPosition =
      .ok chan0 :=
  (C9_getChannel_spec oneChanSession kChannelSpeed kGroupPosition).1 chan0
    (by decide)

/-- C10: AddChannel with an already-registered (name, group) pair leaves the
session unchanged (the first-registered channel is kept and no error is
raised), and every AddChannel call preserves key uniqueness of the channel
map. -/
theorem C10_addChannel_duplicate (s : Session) (c : Channel) :
    (channelKey c.mName c.mGroup ∈ s.mChannels.map Prod.fst →
      Session.AddChannel s c = s) ∧
    ((s.mChannels.map Prod.fst).Nodup →
      ((Session.AddChannel s c).mChannels.map Prod.fst).Nodup) := by
  constructor
  · intro h
    obtain ⟨p, hp, he⟩ := List.mem_map.mp h
    have hany : s.mChannels.any
        (fun p => p.1 = channelKey c.mName c.mGroup) = true := by
      rw [List.any_eq_true]
      exact ⟨p, hp, by simp [he]⟩
    simp [Session.AddChannel, hany]
  · intro h
    by_cases hany : s.mChannels.any
        (fun p => p.1 = channelKey c.mName c.mGroup) = true
    · simp [Session.AddChannel, hany, h]
    · have hnotmem : channelKey c.mName c.mGroup ∉ s.mChannels.map Prod.fst := by
        intro hmem
        obtain ⟨p, hp, he⟩ := List.mem_map.mp hmem
        exact hany (List.any_eq_true.mpr ⟨p, hp, by simp [he]⟩)
      rw [Bool.not_eq_true] at hany
      simp only [Session.AddChannel, hany, Bool.false_eq_true, if_false]
      rw [List.map_append, List.nodup_append]
      refine ⟨h, List.nodup_singleton _, ?_⟩
      intro a ha hb
      simp at hb
      exact hnotmem (hb ▸ ha)

/-- Witness for C10: re-adding the registered chan0 leaves the one-channel
session unchanged. -/
theorem C10_addChannel_duplicate_witness :
    Session.AddChannel oneChanSession chan0 = oneChanSession :=
  (C10_addChannel_duplicate oneChanSession chan0).1 (by decide)

set_option maxRecDepth 40000 in
/-- C4 (failing evaluation): after the single admitted frame sampled by
startLogging, the registered channel (Rotation, "Wheel RF") holds two
samples while (Rotation, "Wheel LF") holds one: the wheel loop of
SampleBlock visits kWheels index 1 and index 2, which are both "Wheel RF"
because of the kGroupWheelLR definition, so one frame appends two values to
every "Wheel RF" channel and channel lengths diverge. -/
theorem C4_unequal_channel_lengths :
    chanLen started kChannelRotation kGroupWheelRF = some 2 ∧
    chanLen started kChannelRotation kGroupWheelLF = some 1 ∧
    (started.mSession.map fun s => s.mChannels.length) = some 47 := by
  decide

/-- C6 (failing evaluation): a session whose vehicle category has been set
serializes to a metadata document with no category element, because
_writeMetaXml never links the category node it creates, so no reader can
reconstruct the category from the archive. -/
theorem C6_vehicle_category_lost :
    c6Session.mVehicleCategory = some "GT" ∧
    (Session.Write c6Session).metaXml.vehicleCategory = none := by
  decide

set_option maxRecDepth 40000 in
/-- C7 (failing evaluation): the fixed catalogue built by
CreateLoggingSession contains no group named "Wheel LR" and no channel named
"Ride Height"; its wheel groups are "Wheel LF", "Wheel RF" and "Wheel RR"
only, because kGroupWheelLR is defined as "Wheel RF" and kChannelRideHeight
as "Right Height". -/
theorem C7_wheel_groups_not_distinct :
    ((CreateLoggingSession 200).mChannels.map fun p => p.2.mGroup).dedup =
      [kGroupAcceleration, kGroupPosition, kGroupDriver, kGroupEngine,
       "Wheel LF", "Wheel RF", "Wheel RR"] ∧
    ¬ ((CreateLoggingSession 200).mChannels.map fun p => p.2.mGroup).contains
        "Wheel LR" ∧
    ¬ ((CreateLoggingSession 200).mChannels.map fun p => p.2.mName).contains
        "Ride Height" ∧
    ((CreateLoggingSession 200).mChannels.map fun p => p.2.mName).contains
        "Right Height" := by
  decide

set_option maxRecDepth 40000 in
/-- C1 (counterexample): on the concrete out-lap run with sector sequence
[1,1,2,2,0,0,1], all splits and last-lap time zero and 5 s of elapsed time,
the marker list is empty after the two sector-1 updates, already holds one
absolute marker (5000 ms, from the elapsed-time counter) right after the
update that reports sector 2 (the 1-to-2 transition, where the claim says no
marker is recorded), and the final update entering sector 1 (the 0-to-1
transition, where the claim says a marker is recorded) adds nothing. -/
theorem C1_counterexample :
    sessionMarkers (scoringRun c1State ((outlapSeq.take 2).map outlapUpd)) =
      [] ∧
    sessionMarkers (scoringRun c1State ((outlapSeq.take 3).map outlapUpd)) =
      [5000] ∧
    sessionMarkers (scoringRun c1State (outlapSeq.map outlapUpd)) =
      sessionMarkers (scoringRun c1State ((outlapSeq.take 6).map outlapUpd)) := by
  decide

/-- C1 (amended): on an out-lap logging run (current sector 1, no markers
yet, metadata not yet captured, green-flag phase) fed the sector sequence
[1,1,2,2,0,0,1] with last-lap time and both splits zero throughout, the
resolver records exactly two markers, both absolute values taken from the
engine's own elapsed-time counter, emitted at the 1-to-2 and 2-to-0
transitions, and no marker at the 0-to-1 transition. -/
theorem C1_outlap_markers (st : PluginState)
    (hlog : st.mIsLogging = true)
    (hsec : st.mCurrentSector = kSectorsSector1)
    (hses : st.mSession.isSome = true)
    (hm : sessionMarkers st = [])
    (hmeta : st.mSavedMetaData = false)
    (hph : st.mCurrentPhase = kGamePhaseGreenFlag) :
    sessionMarkers (scoringRun st ((outlapSeq.take 2).map outlapUpd)) = [] ∧
    sessionMarkers (scoringRun st ((outlapSeq.take 3).map outlapUpd)) =
      [secToMs st.mTotalElapsed] ∧
    sessionMarkers (scoringRun st ((outlapSeq.take 4).map outlapUpd)) =
      [secToMs st.mTotalElapsed] ∧
    sessionMarkers (scoringRun st ((outlapSeq.take 5).map outlapUpd)) =
      [secToMs st.mTotalElapsed, secToMs st.mTotalElapsed] ∧
    sessionMarkers (scoringRun st (outlapSeq.map outlapUpd)) =
      [secToMs st.mTotalElapsed, secToMs st.mTotalElapsed] ∧
    sessionMarkers (scoringRun st ((outlapSeq.take 6).map outlapUpd)) =
      sessionMarkers (scoringRun st (outlapSeq.map outlapUpd)) := by
  rw [Option.isSome_iff_exists] at hses
  obtain ⟨s, hs⟩ := hses
  simp only [sessionMarkers, hs, Option.map_some', Option.getD_some] at hm
  refine ⟨?_, ?_, ?_, ?_, ?_, ?_⟩ <;>
    simp [scoringRun, scoringStep, UpdateScoring, saveMetadata, saveSectorTime,
      stopLogging, saveSession, outlapSeq, outlapUpd, sessionMarkers,
      Session.AddMarker, Session.AddRelativeMarker, hlog, hsec, hs, hm, hmeta,
      hph, kGamePhaseGreenFlag, kGamePhaseNotEnteredGame, kSectorsSector1,
      kSectorsSector2, kSectorsSector3, kSessions]

set_option maxRecDepth 40000 in
/-- Witness for C1 at the freshly started logging state. -/
theorem C1_outlap_markers_witness :
    sessionMarkers (scoringRun started ((outlapSeq.take 2).map outlapUpd)) =
      [] ∧
    sessionMarkers (scoringRun started ((outlapSeq.take 3).map outlapUpd)) =
      [secToMs started.mTotalElapsed] ∧
    sessionMarkers (scoringRun started ((outlapSeq.take 4).map outlapUpd)) =
      [secToMs started.mTotalElapsed] ∧
    sessionMarkers (scoringRun started ((outlapSeq.take 5).map outlapUpd)) =
      [secToMs started.mTotalElapsed, secToMs started.mTotalElapsed] ∧
    sessionMarkers (scoringRun started (outlapSeq.map outlapUpd)) =
      [secToMs started.mTotalElapsed, secToMs started.mTotalElapsed] ∧
    sessionMarkers (scoringRun started ((outlapSeq.take 6).map outlapUpd)) =
      sessionMarkers (scoringRun started (outlapSeq.map outlapUpd)) :=
  C1_outlap_markers started (by decide) (by decide) (by decide) (by decide)
    (by decide) (by decide)

set_option maxRecDepth 40000 in
/-- C2 (counterexample): at the transition that completes sector 1 (player
about to enter sector 2) on the concrete mid-out-lap state with 5 s
elapsed: with a known last lap (100 s, last sector-2 split 40 s, current
sector-1 split 30 s) the resolver records the relative marker 30000 ms
(the current sector-1 split), not last-lap-time minus last-sector-2 =
60000 ms; and with last-lap-time 0 it still records a marker (the absolute
5000 ms), where the claim says none is recorded. -/
theorem C2_counterexample :
    sessionMarkers (scoringStep c1State c2Upd) = [30000] ∧
    (30000 : Int) ≠ secToMs ((100 : ℚ) - 40) ∧
    sessionMarkers (scoringStep c1State (outlapUpd 2)) = [5000] := by
  refine ⟨by decide, ?_, by decide⟩
  rw [show ((100 : ℚ) - 40) = 60 from by norm_num]
  decide

/-- C2 (amended): on the sector transition that enters sector 1 (completing
the final sector of a lap): if the player's last-lap time is greater than
zero, the resolver records one relative marker equal to last-lap-time minus
the last-sector-2 split (in milliseconds); if the last-lap time is not
greater than zero (still on the out-lap), it records no marker at all on
that transition. -/
theorem C2_lap_boundary_marker (st : PluginState) (s : Session)
    (info : ScoringInfoV2) (vinfo : VehicleScoringInfoV2)
    (hlog : st.mIsLogging = true) (hs : st.mSession = some s)
    (hph : ¬ info.mGamePhase < st.mCurrentPhase)
    (hveh : info.mVehicle.find? (fun v => v.mIsPlayer) = some vinfo)
    (hsec : vinfo.mSector = kSectorsSector1)
    (hne : st.mCurrentSector ≠ kSectorsSector1) :
    sessionMarkers (scoringStep st info) =
      if vinfo.mLastLapTime > 0 then
        (Session.AddRelativeMarker s
          (secToMs (vinfo.mLastLapTime - vinfo.mLastSector2))).mMarkers
      else s.mMarkers := by
  have hne' : (1 : Int) ≠ st.mCurrentSector := by
    simpa [kSectorsSector1] using Ne.symm hne
  by_cases hmeta : st.mSavedMetaData <;>
    by_cases hllt : vinfo.mLastLapTime > 0 <;>
      simp [scoringStep, UpdateScoring, saveMetadata, saveSectorTime,
        stopLogging, saveSession, sessionMarkers, Session.AddMarker,
        Session.AddRelativeMarker, hlog, hs, hph, hveh, hsec, hne', hmeta,
        hllt, kSectorsSector1, kSectorsSector2, kSectorsSector3]
  all_goals by_cases hm0 : s.mMarkers = [] <;> simp [hm0]

set_option maxRecDepth 40000 in
/-- Witness for C2 at the minimal logging state in sector 3 receiving the
enters-sector-1 update with last-lap time 100 s. -/
theorem C2_lap_boundary_marker_witness :
    sessionMarkers (scoringStep miniLogging c2WitUpd) =
      if c2WitVinfo.mLastLapTime > 0 then
        (Session.AddRelativeMarker Session.new
          (secToMs (c2WitVinfo.mLastLapTime - c2WitVinfo.mLastSector2))).mMarkers
      else Session.new.mMarkers :=
  C2_lap_boundary_marker miniLogging Session.new c2WitUpd c2WitVinfo
    (by decide) (by decide) (by decide) (by decide) (by decide) (by decide)

/-- SampleBlock never changes the logging flag. -/
theorem SampleBlock_mIsLogging (st : PluginState) (info : TelemInfoV2) :
    (SampleBlock st info).mIsLogging = st.mIsLogging := by
  cases hses : st.mSession <;> by_cases hp : st.mHasPreviousPosition <;>
    simp [SampleBlock, hses, hp]

/-- startLogging leaves the plugin with the logging flag set. -/
theorem startLogging_mIsLogging (st : PluginState) (info : TelemInfoV2) :
    (startLogging st info).mIsLogging = true := by
  simp [startLogging, SampleBlock_mIsLogging]

/-- The logging tail of UpdateTelemetry never changes the logging flag. -/
theorem updateTelemetryBody_mIsLogging (st : PluginState) (info : TelemInfoV2) :
    (updateTelemetryBody st info).mIsLogging = st.mIsLogging := by
  simp only [updateTelemetryBody]
  split_ifs <;> simp [SampleBlock_mIsLogging]

/-- C3: once realtime has been entered (entry phase latched) and logging has
not started, a telemetry frame starts logging exactly when the observed race
phase has reached green flag and the frame's lap-start elapsed time is
positive; otherwise the frame leaves the whole plugin state untouched (it is
discarded without being sampled). -/
theorem C3_awaiting_green_flag_gate (st : PluginState) (info : TelemInfoV2)
    (henter : st.mEnterPhase ≠ kGamePhaseNotEnteredGame)
    (hlog : st.mIsLogging = false) :
    ((UpdateTelemetry st info).mIsLogging = true ↔
      (kGamePhaseGreenFlag ≤ st.mCurrentPhase ∧ 0 < info.mLapStartET)) ∧
    (¬ (kGamePhaseGreenFlag ≤ st.mCurrentPhase ∧ 0 < info.mLapStartET) →
      UpdateTelemetry st info = st) := by
  by_cases hc : kGamePhaseGreenFlag ≤ st.mCurrentPhase ∧ 0 < info.mLapStartET <;>
    simp [UpdateTelemetry, henter, hlog, hc, updateTelemetryBody_mIsLogging,
      startLogging_mIsLogging]

/-- Witness for C3 at a state that entered realtime during the formation lap
and a frame with zero lap-start elapsed time: the frame is discarded. -/
theorem C3_awaiting_green_flag_gate_witness :
    ((UpdateTelemetry awaitingState frame0).mIsLogging = true ↔
      (kGamePhaseGreenFlag ≤ awaitingState.mCurrentPhase ∧
        0 < frame0.mLapStartET)) ∧
    (¬ (kGamePhaseGreenFlag ≤ awaitingState.mCurrentPhase ∧
        0 < frame0.mLapStartET) →
      UpdateTelemetry awaitingState frame0 = awaitingState) :=
  C3_awaiting_green_flag_gate awaitingState frame0 (by decide) (by decide)

/-- C5: a scoring update whose phase is numerically lower than the
previously observed phase while logging stops the engine before any marker
or metadata processing: the resulting state is not logging, holds no
session, has its entry phase reset, tracks the new phase, and the flushed
archive is exactly the serialization of the session as it was (subject only
to the minimum-lap policy); re-delivering the same update to the stopped
state produces no further stop and no further flush. -/
theorem C5_restart_single_stop (st : PluginState) (s : Session)
    (info : ScoringInfoV2)
    (hlog : st.mIsLogging = true) (hs : st.mSession = some s)
    (hph : info.mGamePhase < st.mCurrentPhase) :
    (UpdateScoring st info).1.mIsLogging = false ∧
    (UpdateScoring st info).1.mSession = none ∧
    (UpdateScoring st info).1.mEnterPhase = kGamePhaseNotEnteredGame ∧
    (UpdateScoring st info).1.mCurrentPhase = info.mGamePhase ∧
    (UpdateScoring st info).2 =
      (if st.cfg.requireOneLap ∧ st.mCurrentLapNumber - st.mEnterLapNumber < 1
        then none else some (Session.Write s)) ∧
    (UpdateScoring (UpdateScoring st info).1 info).2 = none ∧
    (UpdateScoring (UpdateScoring st info).1 info).1.mIsLogging = false := by
  simp [UpdateScoring, stopLogging, saveSession, hlog, hs, hph]

/-- Witness for C5: a full-course-yellow logging state receiving a
before-session scoring update (phase 0 below phase 6). -/
theorem C5_restart_single_stop_witness :
    (UpdateScoring c5State c5Upd).1.mIsLogging = false ∧
    (UpdateScoring c5State c5Upd).1.mSession = none ∧
    (UpdateScoring c5State c5Upd).1.mEnterPhase = kGamePhaseNotEnteredGame ∧
    (UpdateScoring c5State c5Upd).1.mCurrentPhase = c5Upd.mGamePhase ∧
    (UpdateScoring c5State c5Upd).2 =
      (if c5State.cfg.requireOneLap ∧
          c5State.mCurrentLapNumber - c5State.mEnterLapNumber < 1
        then none else some (Session.Write Session.new)) ∧
    (UpdateScoring (UpdateScoring c5State c5Upd).1 c5Upd).2 = none ∧
    (UpdateScoring (UpdateScoring c5State c5Upd).1 c5Upd).1.mIsLogging =
      false :=
  C5_restart_single_stop c5State Session.new c5Upd (by decide) (by decide)
    (by decide)
